import Mathlib

/-!
Shallow embedding of the audio intake and voice-activity gating pipeline of
`backend/services/audio_upload.py` and `backend/services/audio_validation.py`.

Modelling conventions:
* Bytes are `List Nat`; 16-bit PCM sample buffers are `List Int` — the view
  `np.frombuffer(frames, dtype=np.int16)` gives of the byte string, two bytes
  per sample, so the 320-byte frame slices of the source correspond to
  160-sample slices here.
* The uploads directory is a finite map from file names to byte contents
  (`FS`).  A file name is the pair of the uuid stem and the extension, since
  every path the code builds has the shape `uploads/{file_id}.{ext}`.
* External effects are oracles bundled in `Env`: `base64.b64decode`
  (`none` models `binascii.Error`), `magic` MIME sniffing, the `ffmpeg`
  subprocess (`none` models a non-zero exit, in which case no output file is
  produced), the `wave` module parser, and `webrtcvad.Vad.is_speech`
  (`none` models the call raising).  The `DEBUG_AUDIO` environment variable
  is taken to be unset, so the `aplay` debug branch at line 86 is inert.
* Python floats are modelled as exact rationals.
-/

/-! Filesystem model: the `uploads/` directory. -/

/-- A path `uploads/{file_id}.{ext}` is modelled by its stem and extension. -/
structure FileName where
  stem : String
  ext : String
deriving DecidableEq, Repr

/-- Raw byte contents of a file. -/
abbrev Bytes := List Nat

/-- The uploads directory: an association of file names to contents. -/
abbrev FS := List (FileName × Bytes)

/-- Contents stored under a name, `none` when no such file exists. -/
def fsLookup : FS → FileName → Option Bytes
  | [], _ => none
  | (m, d) :: fs, n => if n = m then some d else fsLookup fs n

/-- Model of `Path.exists`. -/
def fsExists (fs : FS) (n : FileName) : Bool :=
  (fsLookup fs n).isSome

/-- Model of `Path.unlink`: removes the file of that name, if any. -/
def fsRemove : FS → FileName → FS
  | [], _ => []
  | (m, d) :: fs, n => if m = n then fsRemove fs n else (m, d) :: fsRemove fs n

/-- Model of `open(path, "wb")` followed by a full write: overwrites. -/
def fsWrite (fs : FS) (n : FileName) (d : Bytes) : FS :=
  (n, d) :: fsRemove fs n

/-! WAV files as the `wave` module exposes them (`audio_validation.py` 18-38). -/

/-- Header fields and 16-bit samples of a parsed WAV file: `getnchannels`,
`getsampwidth`, `getframerate`, and the `np.int16` view of `readframes`. -/
structure WavFile where
  nchannels : Nat
  sampwidth : Nat
  framerate : Nat
  samples : List Int
deriving DecidableEq, Repr

/-! The voice-activity loop of `AudioValidator.validate_wav` (lines 40-77). -/

/-- Model of numpy `np.abs` on an `int16` value: two's-complement wrap makes
`abs(-32768)` equal to `-32768` itself. -/
def npAbs (s : Int) : Int :=
  if s = -32768 then -32768 else (s.natAbs : Int)

/-- Model of `np.max(np.abs(audio_data))` on a nonempty buffer (line 41);
on `[]` the source raises inside numpy and is caught by the handler at
line 79, which is modelled separately in `validate_wav`. -/
def npMaxAbs : List Int → Int
  | [] => 0
  | x :: xs => (xs.map npAbs).foldl max (npAbs x)

/-- State threaded through the frame loop of lines 52-70:
`total_frames`, `speech_frames` and `window`. -/
structure VadState where
  total : Nat
  speech : Nat
  window : List Bool
deriving DecidableEq, Repr

/-- Python `sum(window)` on a list of booleans. -/
def countTrue (w : List Bool) : Nat :=
  (w.filter id).length

/-- Lines 62-64: `window.append(is_speech)` then `window.pop(0)` once the
window exceeds `window_size = 5`. -/
def pushWindow (w : List Bool) (b : Bool) : List Bool :=
  if 5 < (w ++ [b]).length then (w ++ [b]).drop 1 else w ++ [b]

/-- One iteration of the loop body for a complete frame (lines 58-70).
`vad chunk = none` models `self.vad.is_speech` raising: the handler at
line 68 runs `continue`, after `total_frames` was already incremented at
line 59 and before the window or the speech count were touched. -/
def vadStep (vad : List Int → Option Bool) (st : VadState) (chunk : List Int) : VadState :=
  match vad chunk with
  | none => ⟨st.total + 1, st.speech, st.window⟩
  | some b =>
      ⟨st.total + 1,
       if (pushWindow st.window b).length = 5 ∧ 3 ≤ countTrue (pushWindow st.window b) then
         st.speech + 1
       else st.speech,
       pushWindow st.window b⟩

/-- The complete 160-sample frames of the buffer, in order; the trailing
partial frame is dropped by the `len(chunk) == frame_size` test at line 58. -/
def fullChunks (n : Nat) (l : List Int) : List (List Int) :=
  if h : 0 < n ∧ n ≤ l.length then
    l.take n :: fullChunks n (l.drop n)
  else []
termination_by l.length
decreasing_by
  simp only [List.length_drop]
  omega

/-- The frame loop of lines 52-70, folded over the complete frames. -/
def speechStats (vad : List Int → Option Bool) (samples : List Int) : VadState :=
  (fullChunks 160 samples).foldl (vadStep vad) ⟨0, 0, []⟩

/-- The pair `(total_frames, speech_frames)` after the loop. -/
def countFrames (vad : List Int → Option Bool) (samples : List Int) : Nat × Nat :=
  ((speechStats vad samples).total, (speechStats vad samples).speech)

/-- Line 72: `speech_frames / total_frames if total_frames > 0 else 0`. -/
def speechRatioOf (st : VadState) : ℚ :=
  if 0 < st.total then (st.speech : ℚ) / (st.total : ℚ) else 0

/-- Model of `AudioValidator.validate_wav` on the parsed file (the argument is
`none` when the path could not be opened and parsed as a WAV file, which the
handler at lines 79-81 maps to `(False, 0.0)`).  The format checks are
lines 26-34, the empty-buffer numpy failure is absorbed by the same handler,
the quietness gate is lines 40-43, the loop is lines 52-70 and the result
assembly is lines 72-77. -/
def validate_wav (vad : List Int → Option Bool) (wf : Option WavFile) : Bool × ℚ :=
  match wf with
  | none => (false, 0)
  | some w =>
      if w.nchannels ≠ 1 then (false, 0)
      else if w.sampwidth ≠ 2 then (false, 0)
      else if w.framerate ≠ 16000 then (false, 0)
      else if w.samples = [] then (false, 0)
      else if npMaxAbs w.samples < 1000 then (false, 0)
      else
        (decide ((8 : ℚ) / 100 < speechRatioOf (speechStats vad w.samples)),
         speechRatioOf (speechStats vad w.samples))

/-! The orchestrator `AudioUploadService` (`audio_upload.py`). -/

/-- Python exception values that escape `process_upload` / `get_audio_path`. -/
inductive PyError where
  | valueError : String → PyError
  | fileNotFound : String → PyError
deriving DecidableEq, Repr

/-- The class dictionary `SUPPORTED_MIME_TYPES` (lines 14-21): each key maps
to an `(extension, mime)` pair, of which `process_upload` uses only the
extension (line 80 discards the second component). -/
def SUPPORTED_MIME_TYPES : List (String × String × String) :=
  [("audio/wav", "wav", "audio/wav"),
   ("audio/mp3", "mp3", "audio/mp3"),
   ("audio/aiff", "aiff", "audio/aiff"),
   ("audio/aac", "aac", "audio/aac"),
   ("audio/ogg", "ogg", "audio/ogg"),
   ("audio/flac", "flac", "audio/flac")]

/-- Python dict membership plus indexing on `SUPPORTED_MIME_TYPES`. -/
def dictLookup : List (String × String × String) → String → Option (String × String)
  | [], _ => none
  | (k, e, m) :: rest, q => if q = k then some (e, m) else dictLookup rest q

/-- The external collaborators of the pipeline, as oracles. -/
structure Env where
  b64decode : String → Option Bytes
  detectMime : Bytes → String
  ffmpeg : Bytes → Option Bytes
  readWav : Bytes → Option WavFile
  vad : List Int → Option Bool

/-- The tuple `(file_id, size, has_speech, speech_ratio)` of line 98. -/
structure UploadResult where
  file_id : String
  size : Nat
  has_speech : Bool
  ratio : ℚ
deriving DecidableEq, Repr

/-- Final uploads-directory state, returned value or escaped exception, and
whether the ffmpeg subprocess was invoked during the call. -/
structure UploadOutcome where
  fs : FS
  result : Except PyError UploadResult
  ffmpegInvoked : Bool

/-- Parse the WAV file at an optional path from the directory state: the
supported-format branch leaves `wav_path = None` (line 27), and
`wave.open(str(None))` then fails, yielding `none` here. -/
def readWavFrom (env : Env) (fs : FS) : Option FileName → Option WavFile
  | none => none
  | some p =>
      match fsLookup fs p with
      | none => none
      | some bs => env.readWav bs

/-- Model of `AudioUploadService.process_upload` on a string input (the normal
base64 transport path), with `fid` standing for the fresh `uuid.uuid4()` of
line 47.  Decode failure raises `ValueError("Invalid audio data format")`
(line 42) before any write; the raw bytes are stored under `{fid}.raw`
(lines 50-52); an unsupported sniffed MIME type goes through ffmpeg into
`{fid}.wav` (lines 58-73), whose failure raises
`ValueError("Audio conversion failed")` and triggers the cleanup loop of
lines 103-105 over `[temp_path, wav_path]`; a supported MIME type stores the
bytes verbatim under `{fid}.{ext}` (lines 80-83) and leaves `wav_path` as
`None` for the validation call at line 91. -/
def process_upload (env : Env) (fid : String) (fs : FS) (audio_data : String) : UploadOutcome :=
  match env.b64decode audio_data with
  | none =>
      ⟨fs, .error (.valueError "Invalid audio data format"), false⟩
  | some decoded_data =>
      let fs1 := fsWrite fs ⟨fid, "raw"⟩ decoded_data
      match dictLookup SUPPORTED_MIME_TYPES (env.detectMime decoded_data) with
      | none =>
          match env.ffmpeg decoded_data with
          | none =>
              ⟨fsRemove (fsRemove fs1 ⟨fid, "raw"⟩) ⟨fid, "wav"⟩,
               .error (.valueError "Audio conversion failed"), true⟩
          | some converted =>
              let fs2 := fsWrite fs1 ⟨fid, "wav"⟩ converted
              let hr := validate_wav env.vad (readWavFrom env fs2 (some ⟨fid, "wav"⟩))
              ⟨fs2, .ok ⟨fid, decoded_data.length, hr.1, hr.2⟩, true⟩
      | some extPair =>
          let fs2 := fsWrite fs1 ⟨fid, extPair.1⟩ decoded_data
          let hr := validate_wav env.vad (readWavFrom env fs2 none)
          ⟨fs2, .ok ⟨fid, decoded_data.length, hr.1, hr.2⟩, false⟩

/-- Model of `AudioUploadService.get_audio_path` (lines 108-115): a pure
existence check on `{file_id}.wav`. -/
def get_audio_path (fs : FS) (file_id : String) : Except PyError FileName :=
  if fsExists fs ⟨file_id, "wav"⟩ then .ok ⟨file_id, "wav"⟩
  else .error (.fileNotFound ("No audio file found for ID: " ++ file_id))

/-! Basic lemmas about the filesystem model. -/

theorem fsLookup_fsWrite_same (fs : FS) (n : FileName) (d : Bytes) :
    fsLookup (fsWrite fs n d) n = some d := by
  simp [fsWrite, fsLookup]

theorem fsLookup_fsRemove_ne (fs : FS) (n m : FileName) (h : m ≠ n) :
    fsLookup (fsRemove fs n) m = fsLookup fs m := by
  induction fs with
  | nil => rfl
  | cons e es ih =>
      obtain ⟨k, d⟩ := e
      simp only [fsRemove, fsLookup]
      by_cases hk : k = n
      · rw [if_pos hk, ih]
        rw [if_neg (fun hm => h (hm.trans hk))]
      · rw [if_neg hk]
        simp only [fsLookup]
        by_cases hm : m = k
        · rw [if_pos hm, if_pos hm]
        · rw [if_neg hm, if_neg hm, ih]

theorem fsLookup_fsWrite_ne (fs : FS) (n m : FileName) (d : Bytes) (h : m ≠ n) :
    fsLookup (fsWrite fs n d) m = fsLookup fs m := by
  simp only [fsWrite, fsLookup, if_neg h]
  exact fsLookup_fsRemove_ne fs n m h

theorem fsExists_fsWrite_ne (fs : FS) (n m : FileName) (d : Bytes) (h : m ≠ n) :
    fsExists (fsWrite fs n d) m = fsExists fs m := by
  simp [fsExists, fsLookup_fsWrite_ne fs n m d h]

theorem fsRemove_of_not_exists (fs : FS) (n : FileName) (h : fsExists fs n = false) :
    fsRemove fs n = fs := by
  induction fs with
  | nil => rfl
  | cons e es ih =>
      obtain ⟨k, d⟩ := e
      simp only [fsExists, fsLookup] at h
      by_cases hk : n = k
      · rw [if_pos hk] at h
        simp at h
      · rw [if_neg hk] at h
        simp only [fsRemove]
        rw [if_neg (fun hc => hk hc.symm), ih h]

theorem fsRemove_fsRemove (fs : FS) (n : FileName) :
    fsRemove (fsRemove fs n) n = fsRemove fs n := by
  induction fs with
  | nil => rfl
  | cons e es ih =>
      obtain ⟨k, d⟩ := e
      by_cases hk : k = n
      · simp [fsRemove, hk, ih]
      · simp [fsRemove, hk, ih]

theorem fsRemove_fsWrite_same (fs : FS) (n : FileName) (d : Bytes) :
    fsRemove (fsWrite fs n d) n = fsRemove fs n := by
  simp [fsWrite, fsRemove, fsRemove_fsRemove]

/-! Basic lemmas about the frame partition. -/

theorem fullChunks_of_lt (n : Nat) (l : List Int) (h : l.length < n) :
    fullChunks n l = [] := by
  rw [fullChunks]
  rw [dif_neg]
  omega

theorem fullChunks_step (n : Nat) (l : List Int) (h1 : 0 < n) (h2 : n ≤ l.length) :
    fullChunks n l = l.take n :: fullChunks n (l.drop n) := by
  rw [fullChunks]
  rw [dif_pos ⟨h1, h2⟩]

/-! Invariants of the frame loop. -/

theorem vadStep_total (vad : List Int → Option Bool) (st : VadState) (c : List Int) :
    (vadStep vad st c).total = st.total + 1 := by
  unfold vadStep
  cases vad c <;> rfl

theorem vadStep_speech_le (vad : List Int → Option Bool) (st : VadState) (c : List Int)
    (h : st.speech ≤ st.total) :
    (vadStep vad st c).speech ≤ (vadStep vad st c).total := by
  unfold vadStep
  cases vad c with
  | none => exact Nat.le_succ_of_le h
  | some b =>
      dsimp only
      split_ifs <;> omega

theorem foldl_speech_le_total (vad : List Int → Option Bool) (chunks : List (List Int)) :
    ∀ st : VadState, st.speech ≤ st.total →
      (chunks.foldl (vadStep vad) st).speech ≤ (chunks.foldl (vadStep vad) st).total := by
  induction chunks with
  | nil => intro st h; simpa using h
  | cons c cs ih =>
      intro st h
      simp only [List.foldl_cons]
      exact ih _ (vadStep_speech_le vad st c h)

theorem speechStats_speech_le_total (vad : List Int → Option Bool) (samples : List Int) :
    (speechStats vad samples).speech ≤ (speechStats vad samples).total :=
  foldl_speech_le_total vad (fullChunks 160 samples) ⟨0, 0, []⟩ (Nat.le_refl 0)

theorem speechRatioOf_nonneg (st : VadState) : 0 ≤ speechRatioOf st := by
  unfold speechRatioOf
  split_ifs
  · positivity
  · exact le_refl 0

theorem speechRatioOf_le_one (st : VadState) (h : st.speech ≤ st.total) :
    speechRatioOf st ≤ 1 := by
  unfold speechRatioOf
  split_ifs with ht
  · rw [div_le_one (by exact_mod_cast ht)]
    exact_mod_cast h
  · exact zero_le_one

/-! Lemmas about the quietness gate. -/

theorem npAbs_lt_of_natAbs_lt (s : Int) (h : s.natAbs < 1000) : npAbs s < 1000 := by
  unfold npAbs
  split_ifs with hs
  · omega
  · omega

theorem foldl_max_lt (l : List Int) (x : Int) (hx : x < 1000) (hl : ∀ y ∈ l, y < 1000) :
    l.foldl max x < 1000 := by
  induction l generalizing x with
  | nil => simpa using hx
  | cons y ys ih =>
      simp only [List.foldl_cons]
      exact ih (max x y) (max_lt hx (hl y (by simp))) (fun z hz => hl z (by simp [hz]))

theorem npMaxAbs_lt_of_quiet (samples : List Int) (h : ∀ s ∈ samples, s.natAbs < 1000) :
    npMaxAbs samples < 1000 := by
  cases samples with
  | nil => simp [npMaxAbs]
  | cons x xs =>
      unfold npMaxAbs
      apply foldl_max_lt
      · exact npAbs_lt_of_natAbs_lt x (h x (by simp))
      · intro y hy
        obtain ⟨s, hs, rfl⟩ := List.mem_map.mp hy
        exact npAbs_lt_of_natAbs_lt s (h s (by simp [hs]))

/-! Concrete oracle environments used for counterexamples and witnesses. -/

/-- Concrete environment: decoding yields three bytes sniffed as `audio/wav`;
the converter, were it invoked, would output `[9, 9, 9]`. -/
def envWavKeep : Env :=
  ⟨fun _ => some [1, 2, 3], fun _ => "audio/wav", fun _ => some [9, 9, 9],
   fun _ => none, fun _ => some true⟩

/-- Concrete environment: bytes sniffed as `audio/mp3`. -/
def envMp3Keep : Env :=
  ⟨fun _ => some [1, 2, 3], fun _ => "audio/mp3", fun _ => some [9, 9, 9],
   fun _ => none, fun _ => some true⟩

/-- Concrete environment: bytes sniffed as the unsupported `video/mp4` and a
converter that fails (non-zero exit). -/
def envConvertFail : Env :=
  ⟨fun _ => some [7], fun _ => "video/mp4", fun _ => none,
   fun _ => none, fun _ => some false⟩

/-- Concrete environment: base64 decoding fails. -/
def envDecodeFail : Env :=
  ⟨fun _ => none, fun _ => "audio/wav", fun _ => some [9, 9, 9],
   fun _ => none, fun _ => some true⟩

/-! Claim C1. -/

/-- Counterexample to C1: for an upload sniffed as the supported codec
`audio/wav`, `process_upload` never invokes the external converter and stores
the raw bytes `[1, 2, 3]` verbatim under `{id}.wav` — no canonicalization and
no 2.0x gain is applied (the converter would have produced `[9, 9, 9]`). -/
theorem C1_counterexample :
    (process_upload envWavKeep "id0" [] "abc").ffmpegInvoked = false ∧
    fsLookup (process_upload envWavKeep "id0" [] "abc").fs ⟨"id0", "wav"⟩ = some [1, 2, 3] := by
  constructor <;> rfl

/-- C1 (corrected): an upload whose detected MIME type is one of the supported
input codecs is NOT routed through the external converter: `process_upload`
skips the ffmpeg invocation (lines 78-83 of `audio_upload.py`) and stores the
raw decoded bytes unchanged under `{id}.{ext}`; only unsupported formats are
converted. -/
theorem C1_supported_format_skips_converter (env : Env) (fid : String) (fs : FS)
    (s : String) (data : Bytes) (ep : String × String)
    (hdec : env.b64decode s = some data)
    (hmime : dictLookup SUPPORTED_MIME_TYPES (env.detectMime data) = some ep) :
    (process_upload env fid fs s).ffmpegInvoked = false ∧
    fsLookup (process_upload env fid fs s).fs ⟨fid, ep.1⟩ = some data := by
  unfold process_upload
  simp only [hdec, hmime]
  exact ⟨trivial, fsLookup_fsWrite_same _ _ _⟩

/-- Witness for C1: the corrected statement at a concrete input. -/
theorem C1_supported_format_skips_converter_witness :
    (process_upload envMp3Keep "id1" [] "abc").ffmpegInvoked = false ∧
    fsLookup (process_upload envMp3Keep "id1" [] "abc").fs ⟨"id1", "mp3"⟩ = some [1, 2, 3] :=
  C1_supported_format_skips_converter envMp3Keep "id1" [] "abc" [1, 2, 3]
    ("mp3", "audio/mp3") rfl rfl

/-! Claim C2. -/

/-- C2 (confirmed): when the detected MIME type is supported, `wav_path` keeps
the `None` it was given at line 27, `validate_wav(None)` fails to open the
file and its handler returns `(False, 0.0)`, so `process_upload` reports
`has_speech = false` and `speech ratio = 0` regardless of content. -/
theorem C2_supported_format_reports_no_speech (env : Env) (fid : String) (fs : FS)
    (s : String) (data : Bytes) (ep : String × String)
    (hdec : env.b64decode s = some data)
    (hmime : dictLookup SUPPORTED_MIME_TYPES (env.detectMime data) = some ep) :
    (process_upload env fid fs s).result = .ok ⟨fid, data.length, false, 0⟩ := by
  unfold process_upload
  simp only [hdec, hmime]
  rfl

/-- Witness for C2: a wav-sniffed upload at a concrete input. -/
theorem C2_supported_format_reports_no_speech_witness :
    (process_upload envWavKeep "id2" [] "abc").result = .ok ⟨"id2", 3, false, 0⟩ :=
  C2_supported_format_reports_no_speech envWavKeep "id2" [] "abc" [1, 2, 3]
    ("wav", "audio/wav") rfl rfl

/-! Claim C6. -/

/-- C6 (confirmed): an input string that fails base64 decoding makes
`process_upload` fail with the decode-specific
`ValueError("Invalid audio data format")` (line 42), raised before the raw
artifact write at lines 50-52, so the uploads directory is left untouched. -/
theorem C6_invalid_encoding_before_write (env : Env) (fid : String) (fs : FS) (s : String)
    (h : env.b64decode s = none) :
    process_upload env fid fs s =
      ⟨fs, .error (.valueError "Invalid audio data format"), false⟩ := by
  unfold process_upload
  rw [h]

/-- Witness for C6 at a concrete input. -/
theorem C6_invalid_encoding_before_write_witness :
    process_upload envDecodeFail "id3" [] "%%%" =
      ⟨[], .error (.valueError "Invalid audio data format"), false⟩ :=
  C6_invalid_encoding_before_write envDecodeFail "id3" [] "%%%" rfl

/-! Claim C10. -/

/-- C10 (confirmed): a successful upload of a supported format other than WAV
stores the artifact under `{id}.{ext}` with `ext` ≠ `wav` (line 81), while
`get_audio_path` only checks `{id}.wav` (line 111), so the lookup on the
identifier just returned raises the artifact-not-found error. -/
theorem C10_nonwav_artifact_unreachable (env : Env) (fid : String) (fs : FS)
    (s : String) (data : Bytes) (ep : String × String)
    (hdec : env.b64decode s = some data)
    (hmime : dictLookup SUPPORTED_MIME_TYPES (env.detectMime data) = some ep)
    (hext : ep.1 ≠ "wav")
    (hfresh : fsExists fs ⟨fid, "wav"⟩ = false) :
    (process_upload env fid fs s).result = .ok ⟨fid, data.length, false, 0⟩ ∧
    get_audio_path (process_upload env fid fs s).fs fid =
      .error (.fileNotFound ("No audio file found for ID: " ++ fid)) := by
  unfold process_upload
  simp only [hdec, hmime]
  refine ⟨rfl, ?_⟩
  unfold get_audio_path
  have h1 : (⟨fid, "wav"⟩ : FileName) ≠ ⟨fid, ep.1⟩ := by
    intro hc
    injection hc with hs he
    exact hext he.symm
  have h2 : (⟨fid, "wav"⟩ : FileName) ≠ ⟨fid, "raw"⟩ := by
    intro hc
    injection hc with hs he
    exact absurd he (by decide)
  rw [fsExists_fsWrite_ne _ _ _ _ h1, fsExists_fsWrite_ne _ _ _ _ h2, hfresh]
  simp

/-- Witness for C10: a concrete mp3 upload, then the failing lookup. -/
theorem C10_nonwav_artifact_unreachable_witness :
    (process_upload envMp3Keep "id4" [] "abc").result = .ok ⟨"id4", 3, false, 0⟩ ∧
    get_audio_path (process_upload envMp3Keep "id4" [] "abc").fs "id4" =
      .error (.fileNotFound ("No audio file found for ID: " ++ "id4")) :=
  C10_nonwav_artifact_unreachable envMp3Keep "id4" [] "abc" [1, 2, 3]
    ("mp3", "audio/mp3") rfl rfl (by decide) rfl

/-! Claim C5. -/

/-- C5 (confirmed): with the debug playback disabled (its default), every
failing path of `process_upload` restores the uploads directory for a fresh
identifier — the decode failure happens before any write, and the transcode
failure removes the raw artifact in the handler of lines 103-105 while no
canonical artifact was produced — so afterwards `get_audio_path` cannot reach
any artifact of that call. -/
theorem C5_failure_cleans_artifacts (env : Env) (fid : String) (fs : FS) (s : String)
    (e : PyError)
    (hraw : fsExists fs ⟨fid, "raw"⟩ = false)
    (hwav : fsExists fs ⟨fid, "wav"⟩ = false)
    (herr : (process_upload env fid fs s).result = .error e) :
    (process_upload env fid fs s).fs = fs ∧
    get_audio_path (process_upload env fid fs s).fs fid =
      .error (.fileNotFound ("No audio file found for ID: " ++ fid)) := by
  have hfs : (process_upload env fid fs s).fs = fs := by
    unfold process_upload at herr ⊢
    cases hdec : env.b64decode s with
    | none => simp [hdec]
    | some data =>
        simp only [hdec] at herr ⊢
        cases hmime : dictLookup SUPPORTED_MIME_TYPES (env.detectMime data) with
        | none =>
            simp only [hmime] at herr ⊢
            cases hff : env.ffmpeg data with
            | none =>
                simp only [hff]
                rw [fsRemove_fsWrite_same, fsRemove_of_not_exists fs _ hraw,
                    fsRemove_of_not_exists fs _ hwav]
            | some conv => simp [hff] at herr
        | some ep => simp [hmime] at herr
  refine ⟨hfs, ?_⟩
  rw [hfs]
  unfold get_audio_path
  rw [hwav]
  simp

/-- Witness for C5: a concrete failing transcode over an empty directory. -/
theorem C5_failure_cleans_artifacts_witness :
    (process_upload envConvertFail "id5" [] "abc").fs = [] ∧
    get_audio_path (process_upload envConvertFail "id5" [] "abc").fs "id5" =
      .error (.fileNotFound ("No audio file found for ID: " ++ "id5")) :=
  C5_failure_cleans_artifacts envConvertFail "id5" [] "abc"
    (.valueError "Audio conversion failed") rfl rfl rfl

/-! Claim C3. -/

/-- Counterexample to C3: with a classifier that raises on its (single, loud,
complete) frame, the loop still counts that frame in `total_frames` — the
count is `(1, 0)`, not the `(0, 0)` the claim predicts, because line 59
increments `total_frames` before the `try` block of lines 60-70. -/
theorem C3_counterexample :
    countFrames (fun _ => none) (List.replicate 160 (1000 : Int)) = (1, 0) := by
  have h0 : fullChunks 160 ([] : List Int) = [] := fullChunks_of_lt 160 [] (by norm_num)
  have hch : fullChunks 160 (List.replicate 160 (1000 : Int)) =
      [List.replicate 160 (1000 : Int)] := by
    rw [fullChunks_step 160 _ (by norm_num) (by simp)]
    simp [h0]
  unfold countFrames speechStats
  rw [hch]
  simp [vadStep]

/-- C3 (corrected): when the per-frame classifier raises on a frame, the error
is swallowed and evaluation of the remaining frames continues, the frame is
excluded from the speech count and from the sliding window, but it IS counted
in the total frame count, which was already incremented before the failing
classification. -/
theorem C3_frame_error_swallowed (vad : List Int → Option Bool) (st : VadState)
    (chunk : List Int) (rest : List (List Int)) (h : vad chunk = none) :
    vadStep vad st chunk = ⟨st.total + 1, st.speech, st.window⟩ ∧
    (chunk :: rest).foldl (vadStep vad) st =
      rest.foldl (vadStep vad) ⟨st.total + 1, st.speech, st.window⟩ := by
  have h1 : vadStep vad st chunk = ⟨st.total + 1, st.speech, st.window⟩ := by
    unfold vadStep
    rw [h]
  exact ⟨h1, by rw [List.foldl_cons, h1]⟩

/-- Witness for C3: the corrected statement at a concrete failing frame. -/
theorem C3_frame_error_swallowed_witness :
    vadStep (fun _ => none) ⟨0, 0, []⟩ [5] = ⟨0 + 1, 0, []⟩ ∧
    ([[5]] : List (List Int)).foldl (vadStep (fun _ => none)) ⟨0, 0, []⟩ =
      ([] : List (List Int)).foldl (vadStep (fun _ => none)) ⟨0 + 1, 0, []⟩ :=
  C3_frame_error_swallowed (fun _ => none) ⟨0, 0, []⟩ [5] [] rfl

/-! Claim C4. -/

/-- Counterexample to C4: on a stereo (2-channel) input, `validate_wav` does
not fail with any error — the check at lines 26-28 returns the ordinary
result `(False, 0.0)`, indistinguishable in type from a normal rejection. -/
theorem C4_counterexample :
    validate_wav (fun _ => some true) (some ⟨2, 2, 16000, [5000, 5000]⟩) = (false, 0) := by
  rfl

/-- C4 (corrected): an input violating any of the three canonical format
invariants makes `validate_wav` return the normal result `(False, 0.0)`
(lines 26-34); no `FormatInvariantViolation` error exists and no failure is
raised. -/
theorem C4_invariant_violation_returns_reject (vad : List Int → Option Bool) (w : WavFile)
    (h : w.nchannels ≠ 1 ∨ w.sampwidth ≠ 2 ∨ w.framerate ≠ 16000) :
    validate_wav vad (some w) = (false, 0) := by
  unfold validate_wav
  dsimp only
  split_ifs with g1 g2 g3 g4 g5 <;> try rfl
  tauto

/-- Witness for C4: the corrected statement at a concrete 8-bit-width input. -/
theorem C4_invariant_violation_returns_reject_witness :
    validate_wav (fun _ => some true) (some ⟨1, 1, 16000, [5000]⟩) = (false, 0) :=
  C4_invariant_violation_returns_reject (fun _ => some true) ⟨1, 1, 16000, [5000]⟩
    (Or.inr (Or.inl (by decide)))

/-! Claim C7. -/

/-- C7 (confirmed): a canonical buffer whose peak absolute sample amplitude is
below 1000 is rejected by the quietness gate at lines 40-43 with ratio `0`
and `has_speech = false`, for every per-frame classifier — no per-frame
classification influences the result. -/
theorem C7_quiet_buffer_rejected (vad : List Int → Option Bool) (w : WavFile)
    (h1 : w.nchannels = 1) (h2 : w.sampwidth = 2) (h3 : w.framerate = 16000)
    (hq : ∀ s ∈ w.samples, s.natAbs < 1000) :
    validate_wav vad (some w) = (false, 0) := by
  unfold validate_wav
  dsimp only
  split_ifs with g1 g2 g3 g4 g5 <;> try rfl
  exact absurd (npMaxAbs_lt_of_quiet w.samples hq) g5

/-- Witness for C7 at a concrete quiet buffer. -/
theorem C7_quiet_buffer_rejected_witness :
    validate_wav (fun _ => some true) (some ⟨1, 2, 16000, [500, -999, 0]⟩) = (false, 0) :=
  C7_quiet_buffer_rejected (fun _ => some true) ⟨1, 2, 16000, [500, -999, 0]⟩
    rfl rfl rfl (by decide)

/-! Claim C8. -/

/-- C8 (confirmed): a canonical buffer shorter than one 10 ms frame
(fewer than 160 samples) yields no complete frame, so `total_frames = 0`
(and `speech_frames = 0`) and the returned speech ratio is `0`. -/
theorem C8_short_buffer_zero_frames (vad : List Int → Option Bool) (w : WavFile)
    (h1 : w.nchannels = 1) (h2 : w.sampwidth = 2) (h3 : w.framerate = 16000)
    (hlen : w.samples.length < 160) :
    countFrames vad w.samples = (0, 0) ∧ (validate_wav vad (some w)).2 = 0 := by
  have hch : fullChunks 160 w.samples = [] := fullChunks_of_lt 160 _ hlen
  constructor
  · simp [countFrames, speechStats, hch]
  · unfold validate_wav
    dsimp only
    split_ifs <;> try rfl
    simp only [speechRatioOf, speechStats, hch, List.foldl_nil]
    rfl

/-- Witness for C8 at a concrete loud one-sample buffer. -/
theorem C8_short_buffer_zero_frames_witness :
    countFrames (fun _ => some true) [(2000 : Int)] = (0, 0) ∧
    (validate_wav (fun _ => some true) (some ⟨1, 2, 16000, [(2000 : Int)]⟩)).2 = 0 :=
  C8_short_buffer_zero_frames (fun _ => some true) ⟨1, 2, 16000, [(2000 : Int)]⟩
    rfl rfl rfl (by decide)

/-! Claim C9. -/

/-- C9 (confirmed): the speech ratio returned by `validate_wav` always lies in
the closed interval from 0 to 1, since each loop iteration adds one to the
total count and at most one to the speech count. -/
theorem C9_ratio_in_unit_interval (vad : List Int → Option Bool) (wf : Option WavFile) :
    0 ≤ (validate_wav vad wf).2 ∧ (validate_wav vad wf).2 ≤ 1 := by
  cases wf with
  | none => simp [validate_wav]
  | some w =>
      unfold validate_wav
      dsimp only
      split_ifs <;>
        first
          | exact ⟨speechRatioOf_nonneg _,
                   speechRatioOf_le_one _ (speechStats_speech_le_total vad w.samples)⟩
          | (constructor <;> norm_num)
